import Mathlib

/-!
Verification of the tunecli Player IPC Orchestrator (src/internal/player/player.go).
The Go file contains two revisions of package player separated by a marker:
revision A (lines 1-353, the mpv stdout-based listener) and revision B
(lines 355-640, the socket-based listener with a subscriber list).
Both are embedded below, namespaces RevA and RevB.

Modelling choices:
 - JSON values decoded by encoding/json into `any` are JsonValue; Go numbers
   (float64) are modelled as exact rationals, strings as String, booleans as Bool.
 - A raw line of the event stream either fails json.Unmarshal (Line.malformed)
   or decodes to an MpvEvent (Line.ok).
 - Socket and process side effects are recorded as an ordered Effect trace;
   an Env oracle decides whether the dial and the write succeed.
 - Go int(float64) conversion truncates toward zero: truncRat.
 - strings.TrimSpace and filepath.Base are modelled on the character list,
   with goIsSpace the Unicode White_Space set used by unicode.IsSpace.
-/

set_option maxRecDepth 8192

namespace Tunecli

/-- A JSON value as decoded by encoding/json into an `any` interface value:
numbers become float64 (here exact rationals), plus strings, booleans, null,
and composite values (arrays/objects), which fail every scalar type assertion. -/
inductive JsonValue where
  | null
  | bool (b : Bool)
  | num (x : Rat)
  | str (s : String)
  | composite
deriving DecidableEq

/-- The wire event structure MpvEvent: fields event, name, data. -/
structure MpvEvent where
  event : String
  name : String
  data : JsonValue
deriving DecidableEq

/-- One line of the newline-delimited event stream, after json.Unmarshal:
either a decode failure or a decoded event. -/
inductive Line where
  | malformed
  | ok (e : MpvEvent)
deriving DecidableEq

/-- Go unicode.IsSpace: the Unicode White_Space property. -/
def goIsSpace (c : Char) : Bool :=
  decide (c.toNat = 9 ∨ c.toNat = 10 ∨ c.toNat = 11 ∨ c.toNat = 12 ∨ c.toNat = 13 ∨
    c.toNat = 32 ∨ c.toNat = 0x85 ∨ c.toNat = 0xA0 ∨ c.toNat = 0x1680 ∨
    (0x2000 ≤ c.toNat ∧ c.toNat ≤ 0x200A) ∨ c.toNat = 0x2028 ∨ c.toNat = 0x2029 ∨
    c.toNat = 0x202F ∨ c.toNat = 0x205F ∨ c.toNat = 0x3000)

/-- Go strings.TrimSpace: drop leading and trailing white space. -/
def trimSpace (s : String) : String :=
  String.mk (((s.data.dropWhile goIsSpace).reverse.dropWhile goIsSpace).reverse)

/-- Go path/filepath.Base on unix: empty path gives ".", trailing slashes are
stripped, the last element after the final "/" is returned, and a path of only
slashes gives "/". -/
def filepathBase (path : String) : String :=
  if path = "" then "."
  else
    let l := (path.data.reverse.dropWhile (fun c => c = '/')).reverse
    let last := (l.reverse.takeWhile (fun c => c ≠ '/')).reverse
    if last = [] then "/" else String.mk last

/-- Go int(f) for a float64 f: truncation toward zero. On an exact rational
num/den in lowest terms this is the T-division of the numerator by the
denominator. -/
def truncRat (x : Rat) : Int :=
  x.num.tdiv (x.den : Int)

/-- Go strings.Contains. -/
def containsSubstr (s sub : String) : Bool :=
  decide (sub.data <:+: s.data)

/-- isYoutubeURL from revision A. -/
def isYoutubeURL (path : String) : Bool :=
  containsSubstr path "youtube.com" || containsSubstr path "youtu.be"

/-- One positional argument of an outbound mpv command. -/
inductive CmdArg where
  | str (s : String)
  | int (n : Int)
  | num (x : Rat)
deriving DecidableEq

/-- Error outcomes of the public operations, following the taxonomy of the
fmt.Errorf messages in the source. -/
inductive Err where
  | notStarted
  | invalidArgument (msg : String)
  | commandFailure (msg : String)
  | ytdlpFailure
deriving DecidableEq

/-- Externally visible side effects, in program order. -/
inductive Effect where
  | dial
  | write (cmd : List CmdArg)
  | runYtDlp (url : String)
  | kill
  | cancelCtx
  | waitListener
  | waitProcess
  | closeStateChanges
  | removeSocketFile
deriving DecidableEq

/-- Oracle for the nondeterministic outcomes of socket I/O and of yt-dlp. -/
structure Env where
  dialOk : Bool
  writeOk : Bool
  ytdlp : Option String
deriving DecidableEq

namespace RevA

/-- PlaybackState of revision A (player.go lines 24-30). -/
structure State where
  IsPlaying : Bool
  Title : String
  Volume : Int
  Position : Rat
  Duration : Rat
deriving DecidableEq

/-- The initial state built by NewPlayer (line 56): State with Volume 100,
every other field the Go zero value. -/
def newPlayerState : State :=
  { IsPlaying := false, Title := "", Volume := 100, Position := 0, Duration := 0 }

/-- The Player record: the started flag and the mutex-guarded current state. -/
structure Player where
  started : Bool
  currentState : State
deriving DecidableEq

/-- A player as returned by a successful NewPlayer: start() has set
started to true and no event has been processed yet. -/
def newPlayer : Player :=
  { started := true, currentState := newPlayerState }

/-- GetState (lines 220-224): a snapshot copy of the current state. -/
def GetState (p : Player) : State :=
  p.currentState

/-- Result of processEvent: the state after the call, the snapshots handed to
the StateChanges channel (the non-blocking send is attempted exactly for these),
and whether json.Unmarshal failed (the error returned to the event loop). -/
structure ProcessResult where
  state : State
  broadcasts : List State
  decodeErr : Bool
deriving DecidableEq

/-- processEvent (lines 163-218): decode the line; ignore any event kind other
than property-change; switch on the property name with a type assertion on
data; if a field was assigned, broadcast the new snapshot. -/
def processEvent (s : State) (l : Line) : ProcessResult :=
  match l with
  | Line.malformed => ⟨s, [], true⟩
  | Line.ok e =>
    if e.event ≠ "property-change" then ⟨s, [], false⟩
    else
      let su : State × Bool :=
        if e.name = "pause" then
          match e.data with
          | JsonValue.bool paused => ({ s with IsPlaying := !paused }, true)
          | _ => (s, false)
        else if e.name = "media-title" then
          match e.data with
          | JsonValue.str title => ({ s with Title := filepathBase title }, true)
          | _ => (s, false)
        else if e.name = "volume" then
          match e.data with
          | JsonValue.num volume => ({ s with Volume := truncRat volume }, true)
          | _ => (s, false)
        else if e.name = "time-pos" then
          match e.data with
          | JsonValue.num pos => ({ s with Position := pos }, true)
          | _ => (s, false)
        else if e.name = "duration" then
          match e.data with
          | JsonValue.num dur => ({ s with Duration := dur }, true)
          | _ => (s, false)
        else (s, false)
      if su.2 then ⟨su.1, [su.1], false⟩ else ⟨su.1, [], false⟩

/-- eventLoop (lines 145-161) restricted to its per-line work: scan the lines
in order, give each to processEvent, drop its error and continue. Returns the
final state and the concatenated broadcasts. -/
def eventLoop (s : State) (lines : List Line) : State × List State :=
  match lines with
  | [] => (s, [])
  | l :: rest =>
    let r := processEvent s l
    let tail := eventLoop r.state rest
    (tail.1, r.broadcasts ++ tail.2)

deriving instance DecidableEq for Except

/-- Outcome of one public command call: the returned error value, the effect
trace, and the player afterwards (none of these methods mutate currentState). -/
structure CallResult where
  result : Except Err Unit
  effects : List Effect
  player : Player
deriving DecidableEq

/-- sendCommand (lines 271-295): refuse when not started; dial the socket
(commandTimeout-bounded); marshal and write the command terminated by a
newline. The JSON marshal of a command list cannot fail. -/
def sendCommand (p : Player) (env : Env) (cmd : List CmdArg) : CallResult :=
  if p.started = false then ⟨Except.error Err.notStarted, [], p⟩
  else if env.dialOk = false then
    ⟨Except.error (Err.commandFailure "could not connect to mpv socket"), [Effect.dial], p⟩
  else if env.writeOk = false then
    ⟨Except.error (Err.commandFailure "could not write command"), [Effect.dial, Effect.write cmd], p⟩
  else ⟨Except.ok (), [Effect.dial, Effect.write cmd], p⟩

/-- TogglePause (lines 297-299). -/
def TogglePause (p : Player) (env : Env) : CallResult :=
  sendCommand p env [CmdArg.str "cycle", CmdArg.str "pause"]

/-- Stop (lines 301-303). -/
def Stop (p : Player) (env : Env) : CallResult :=
  sendCommand p env [CmdArg.str "stop"]

/-- SetVolume (lines 305-310): validate the range before anything else. -/
def SetVolume (p : Player) (env : Env) (volume : Int) : CallResult :=
  if volume < 0 ∨ volume > 100 then
    ⟨Except.error (Err.invalidArgument "volume must be between 0 and 100"), [], p⟩
  else sendCommand p env [CmdArg.str "set_property", CmdArg.str "volume", CmdArg.int volume]

/-- Seek (lines 312-314). -/
def Seek (p : Player) (env : Env) (seconds : Rat) : CallResult :=
  sendCommand p env [CmdArg.str "seek", CmdArg.num seconds]

/-- LoadFile (lines 251-269): refuse when not started; refuse a path that is
empty after TrimSpace; resolve a youtube URL through yt-dlp; then send the
loadfile command. -/
def LoadFile (p : Player) (env : Env) (path mode : String) : CallResult :=
  if p.started = false then ⟨Except.error Err.notStarted, [], p⟩
  else if trimSpace path = "" then
    ⟨Except.error (Err.invalidArgument "path cannot be empty"), [], p⟩
  else if isYoutubeURL path then
    match env.ytdlp with
    | none => ⟨Except.error Err.ytdlpFailure, [Effect.runYtDlp path], p⟩
    | some streamURL =>
      let r := sendCommand p env [CmdArg.str "loadfile", CmdArg.str streamURL, CmdArg.str mode]
      ⟨r.result, Effect.runYtDlp path :: r.effects, r.player⟩
  else sendCommand p env [CmdArg.str "loadfile", CmdArg.str path, CmdArg.str mode]

/-- Shutdown (lines 322-353): return nil at once when not started; otherwise
cancel the context, attempt a graceful quit (killing the process if it fails
or times out), wait for the listener and the process, close StateChanges and
remove the socket file. Shutdown always returns nil. -/
def Shutdown (p : Player) (env : Env) : CallResult :=
  if p.started = false then ⟨Except.ok (), [], p⟩
  else
    let quit := sendCommand p env [CmdArg.str "quit"]
    let killEff : List Effect :=
      match quit.result with
      | Except.ok _ => []
      | Except.error _ => [Effect.kill]
    ⟨Except.ok (),
      Effect.cancelCtx :: quit.effects ++ killEff ++
        [Effect.waitListener, Effect.waitProcess, Effect.closeStateChanges,
         Effect.removeSocketFile], p⟩

/-- Characterization of the events whose processing assigns some tracked
PlaybackState field in processEvent: a property-change whose name is one of
the five observed properties and whose data has the type the switch asserts.
Mirrors the conditions under which the updated flag becomes true. -/
def eventTouches (e : MpvEvent) : Bool :=
  if e.event ≠ "property-change" then false
  else if e.name = "pause" then
    match e.data with
    | JsonValue.bool _ => true
    | _ => false
  else if e.name = "media-title" then
    match e.data with
    | JsonValue.str _ => true
    | _ => false
  else if e.name = "volume" then
    match e.data with
    | JsonValue.num _ => true
    | _ => false
  else if e.name = "time-pos" then
    match e.data with
    | JsonValue.num _ => true
    | _ => false
  else if e.name = "duration" then
    match e.data with
    | JsonValue.num _ => true
    | _ => false
  else false

end RevA

/-- Guard for the amended volume invariant: the line is not a volume
property-change carrying numeric data outside the interval 0 to 100. -/
def volumeDataInRange (l : Line) : Bool :=
  match l with
  | Line.malformed => true
  | Line.ok e =>
    if e.event = "property-change" ∧ e.name = "volume" then
      match e.data with
      | JsonValue.num x => decide (0 ≤ x ∧ x ≤ 100)
      | _ => true
    else true

namespace RevB

/-- PlaybackState of revision B (player.go lines 368-377). -/
structure State where
  IsPlaying : Bool
  Title : String
  Artist : String
  Album : String
  Volume : Int
  Position : Rat
  Duration : Rat
  Error : String
deriving DecidableEq

/-- The initial state built by New (line 407): State with Volume 70,
every other field the Go zero value. -/
def newState : State :=
  { IsPlaying := false, Title := "", Artist := "", Album := "",
    Volume := 70, Position := 0, Duration := 0, Error := "" }

/-- updateProperty (lines 531-554): switch on the property name with a type
assertion on the value; an unknown name or a wrong-typed value changes nothing. -/
def updateProperty (s : State) (name : String) (value : JsonValue) : State :=
  if name = "pause" then
    match value with
    | JsonValue.bool paused => { s with IsPlaying := !paused }
    | _ => s
  else if name = "media-title" then
    match value with
    | JsonValue.str title => { s with Title := title }
    | _ => s
  else if name = "volume" then
    match value with
    | JsonValue.num vol => { s with Volume := truncRat vol }
    | _ => s
  else if name = "time-pos" then
    match value with
    | JsonValue.num pos => { s with Position := pos }
    | _ => s
  else if name = "duration" then
    match value with
    | JsonValue.num dur => { s with Duration := dur }
    | _ => s
  else s

/-- handleEvent (lines 509-529): a malformed line returns at once; otherwise
switch on the event kind (property-change, playback-restart, end-file; any
other kind changes nothing) and then call notifySubscribers unconditionally.
The second component is the snapshot handed to every subscriber channel by
that notifySubscribers call (empty when no call was made). -/
def handleEvent (s : State) (l : Line) : State × List State :=
  match l with
  | Line.malformed => (s, [])
  | Line.ok e =>
    let s2 : State :=
      if e.event = "property-change" then updateProperty s e.name e.data
      else if e.event = "playback-restart" then { s with IsPlaying := true, Error := "" }
      else if e.event = "end-file" then { s with IsPlaying := false }
      else s
    (s2, [s2])

/-- eventLoop (lines 491-507) restricted to its per-line work: scan the lines
in order and hand each to handleEvent. -/
def eventLoop (s : State) (lines : List Line) : State × List State :=
  match lines with
  | [] => (s, [])
  | l :: rest =>
    let r := handleEvent s l
    let tail := eventLoop r.1 rest
    (tail.1, r.2 ++ tail.2)

/-- sendCommand (lines 604-622): revision B has no started flag; dial the
socket, marshal and write the command terminated by a newline. -/
def sendCommand (env : Env) (cmd : List CmdArg) : Except Err Unit × List Effect :=
  if env.dialOk = false then
    (Except.error (Err.commandFailure "connect to socket"), [Effect.dial])
  else if env.writeOk = false then
    (Except.error (Err.commandFailure "write command"), [Effect.dial, Effect.write cmd])
  else (Except.ok (), [Effect.dial, Effect.write cmd])

/-- Play (lines 581-583): no validation of the path. -/
def Play (env : Env) (path : String) : Except Err Unit × List Effect :=
  sendCommand env [CmdArg.str "loadfile", CmdArg.str path, CmdArg.str "replace"]

/-- SetVolume (lines 593-598): validate the range, then send set_property. -/
def SetVolume (env : Env) (volume : Int) : Except Err Unit × List Effect :=
  if volume < 0 ∨ volume > 100 then
    (Except.error (Err.invalidArgument "volume must be 0-100"), [])
  else sendCommand env [CmdArg.str "set_property", CmdArg.str "volume", CmdArg.int volume]

end RevB

/-! ## Helper lemmas -/

/-- Truncation toward zero of a rational in the interval from 0 to 100 lies in
the integer interval from 0 to 100. -/
theorem truncRat_bounds (x : Rat) (h0 : 0 ≤ x) (h100 : x ≤ 100) :
    0 ≤ truncRat x ∧ truncRat x ≤ 100 := by
  have hf : truncRat x = ⌊x⌋ := by
    rw [Rat.floor_def, truncRat,
      Int.tdiv_eq_ediv (Rat.num_nonneg.mpr h0) (Int.natCast_nonneg _)]
  rw [hf]
  refine ⟨Int.floor_nonneg.mpr h0, ?_⟩
  calc ⌊x⌋ ≤ ⌊(100 : Rat)⌋ := Int.floor_le_floor h100
    _ = 100 := by norm_num

/-- The Volume field after processEvent: either untouched, or the line is a
volume property-change with numeric data and Volume is its truncation. -/
theorem processEvent_Volume_eq (s : RevA.State) (l : Line) :
    (RevA.processEvent s l).state.Volume = s.Volume ∨
    ∃ x, l = Line.ok ⟨"property-change", "volume", JsonValue.num x⟩ ∧
      (RevA.processEvent s l).state.Volume = truncRat x := by
  cases l with
  | malformed => exact Or.inl rfl
  | ok e =>
    obtain ⟨ev, nm, d⟩ := e
    by_cases hev : ev = "property-change"
    · subst hev
      by_cases h1 : nm = "pause"
      · subst h1; cases d <;> simp [RevA.processEvent]
      · by_cases h2 : nm = "media-title"
        · subst h2; cases d <;> simp [RevA.processEvent]
        · by_cases h3 : nm = "volume"
          · subst h3
            cases d with
            | num x => exact Or.inr ⟨x, rfl, by simp [RevA.processEvent]⟩
            | null => simp [RevA.processEvent]
            | bool b => simp [RevA.processEvent]
            | str t => simp [RevA.processEvent]
            | composite => simp [RevA.processEvent]
          · by_cases h4 : nm = "time-pos"
            · subst h4; cases d <;> simp [RevA.processEvent]
            · by_cases h5 : nm = "duration"
              · subst h5; cases d <;> simp [RevA.processEvent]
              · simp [RevA.processEvent, h1, h2, h3, h4, h5]
    · simp [RevA.processEvent, hev]

/-- The Volume field after updateProperty: either untouched, or the name is
volume, the value numeric, and Volume is its truncation. -/
theorem updateProperty_Volume_eq (s : RevB.State) (nm : String) (d : JsonValue) :
    (RevB.updateProperty s nm d).Volume = s.Volume ∨
    (nm = "volume" ∧ ∃ x, d = JsonValue.num x ∧
      (RevB.updateProperty s nm d).Volume = truncRat x) := by
  by_cases h1 : nm = "pause"
  · subst h1; cases d <;> simp [RevB.updateProperty]
  · by_cases h2 : nm = "media-title"
    · subst h2; cases d <;> simp [RevB.updateProperty]
    · by_cases h3 : nm = "volume"
      · subst h3
        cases d with
        | num x => exact Or.inr ⟨rfl, x, rfl, by simp [RevB.updateProperty]⟩
        | null => simp [RevB.updateProperty]
        | bool b => simp [RevB.updateProperty]
        | str t => simp [RevB.updateProperty]
        | composite => simp [RevB.updateProperty]
      · by_cases h4 : nm = "time-pos"
        · subst h4; cases d <;> simp [RevB.updateProperty]
        · by_cases h5 : nm = "duration"
          · subst h5; cases d <;> simp [RevB.updateProperty]
          · simp [RevB.updateProperty, h1, h2, h3, h4, h5]

/-! ## Claim theorems -/

/-- C5: a line that is not valid JSON is skipped by the event loop of either
revision: the state is not mutated, no broadcast is issued (the decode error
is swallowed by the loop, never surfaced), and the loop goes on to process the
remaining lines exactly as it would have without the malformed line. -/
theorem C5_malformed_line_skipped :
    (∀ s, RevA.processEvent s Line.malformed = ⟨s, [], true⟩) ∧
    (∀ s rest, RevA.eventLoop s (Line.malformed :: rest) = RevA.eventLoop s rest) ∧
    (∀ s, RevB.handleEvent s Line.malformed = (s, [])) ∧
    (∀ s rest, RevB.eventLoop s (Line.malformed :: rest) = RevB.eventLoop s rest) := by
  refine ⟨fun s => rfl, fun s rest => ?_, fun s => rfl, fun s rest => ?_⟩
  · simp [RevA.eventLoop, RevA.processEvent]
  · simp [RevB.eventLoop, RevB.handleEvent]

/-- C6 (amended): on a started player, revision A LoadFile with a path that
trims to the empty string fails with the InvalidArgument error "path cannot
be empty" for every mode, with an empty effect trace (no yt-dlp run, no
socket dial, no write) and the player unchanged; revision B Play however
performs no path validation at all and hands every path — the empty string
included — straight to sendCommand as a loadfile command. -/
theorem C6_loadfile_empty_path (p : RevA.Player) (env : Env) (path mode : String)
    (hs : p.started = true) (hp : trimSpace path = "") :
    RevA.LoadFile p env path mode =
      ⟨Except.error (Err.invalidArgument "path cannot be empty"), [], p⟩ ∧
    (∀ env2 path2, RevB.Play env2 path2 =
      RevB.sendCommand env2
        [CmdArg.str "loadfile", CmdArg.str path2, CmdArg.str "replace"]) := by
  refine ⟨?_, fun env2 path2 => rfl⟩
  simp [RevA.LoadFile, hs, hp]

/-- C6 witness: the whitespace-only path of a space and a tab is rejected by
revision A LoadFile, and revision B Play passes it through unvalidated. -/
theorem C6_loadfile_empty_path_witness :
    trimSpace " \t " = "" ∧
    RevA.LoadFile RevA.newPlayer ⟨true, true, none⟩ " \t " "append" =
      ⟨Except.error (Err.invalidArgument "path cannot be empty"), [], RevA.newPlayer⟩ ∧
    RevB.Play ⟨true, true, none⟩ " \t " =
      RevB.sendCommand ⟨true, true, none⟩
        [CmdArg.str "loadfile", CmdArg.str " \t ", CmdArg.str "replace"] :=
  ⟨by decide,
   (C6_loadfile_empty_path RevA.newPlayer ⟨true, true, none⟩ " \t " "append" rfl
     (by decide)).1,
   (C6_loadfile_empty_path RevA.newPlayer ⟨true, true, none⟩ " \t " "append" rfl
     (by decide)).2 ⟨true, true, none⟩ " \t "⟩

/-- C6 counterexample: revision B Play on the empty path performs I/O and
returns nil — it dials the socket and writes the loadfile command with the
empty path, producing no InvalidArgument error, although the claim says every
whitespace-only path is rejected with InvalidArgument before any I/O. -/
theorem C6_play_no_validation_cex :
    trimSpace "" = "" ∧
    RevB.Play ⟨true, true, none⟩ "" =
      (Except.ok (),
        [Effect.dial,
         Effect.write [CmdArg.str "loadfile", CmdArg.str "", CmdArg.str "replace"]]) :=
  ⟨rfl, rfl⟩

/-- C9 (amended): at construction, before any event, revision A holds
Volume 100 and IsPlaying false and GetState returns exactly that state;
revision B however initializes Volume to 70 (not 100), IsPlaying false. -/
theorem C9_initial_state :
    RevA.newPlayerState.Volume = 100 ∧ RevA.newPlayerState.IsPlaying = false ∧
    RevA.GetState RevA.newPlayer = RevA.newPlayerState ∧
    RevB.newState.Volume = 70 ∧ RevB.newState.IsPlaying = false :=
  ⟨rfl, rfl, rfl, rfl, rfl⟩

/-- C9 counterexample: revision B constructs its state with Volume 70, which
is not the claimed default of 100. -/
theorem C9_default_volume_cex :
    RevB.newState.Volume = 70 ∧ RevB.newState.Volume ≠ 100 :=
  ⟨rfl, by decide⟩

/-- C7 (amended): a volume property-change with numeric data x sets Volume to
the truncation of x toward zero (the Go int conversion), in both revisions —
not to the nearest integer. -/
theorem C7_volume_truncation (s : RevA.State) (sB : RevB.State) (x : Rat) :
    (RevA.processEvent s
        (Line.ok ⟨"property-change", "volume", JsonValue.num x⟩)).state =
      { s with Volume := truncRat x } ∧
    RevB.updateProperty sB "volume" (JsonValue.num x) =
      { sB with Volume := truncRat x } :=
  ⟨rfl, rfl⟩

/-- C7 counterexample: for data 99.9 the code stores 99 while the nearest
integer is 100, so Volume is not round(data). -/
theorem C7_round_cex :
    (RevA.processEvent RevA.newPlayerState
        (Line.ok ⟨"property-change", "volume",
          JsonValue.num (mkRat 999 10)⟩)).state.Volume = 99 ∧
    round (mkRat 999 10) = 100 := by
  constructor
  · decide
  · rw [Rat.mkRat_eq_div]
    norm_num [round_eq]

/-- C8 (amended): a media-title property-change with string data t sets Title
to filepath.Base of t in revision A, with no whitespace trimming, and to t
verbatim in revision B, with neither trimming nor base-name reduction. -/
theorem C8_media_title (s : RevA.State) (sB : RevB.State) (t : String) :
    (RevA.processEvent s
        (Line.ok ⟨"property-change", "media-title", JsonValue.str t⟩)).state =
      { s with Title := filepathBase t } ∧
    RevB.updateProperty sB "media-title" (JsonValue.str t) =
      { sB with Title := t } :=
  ⟨rfl, rfl⟩

/-- C8 counterexample: the title " x " is stored with its surrounding spaces
by revision A, although the claim says it is trimmed to "x"; and revision B
stores the path /a/b.mp3 whole although the claim says it is reduced to its
base name b.mp3. -/
theorem C8_trim_cex :
    (RevA.processEvent RevA.newPlayerState
        (Line.ok ⟨"property-change", "media-title",
          JsonValue.str " x "⟩)).state.Title = " x " ∧
    trimSpace " x " = "x" ∧
    (RevB.updateProperty RevB.newState "media-title"
        (JsonValue.str "/a/b.mp3")).Title = "/a/b.mp3" ∧
    filepathBase "/a/b.mp3" = "b.mp3" := by
  refine ⟨rfl, by decide, rfl, by decide⟩

/-- C3 (amended): in revision B, an end-file event sets IsPlaying to false
and mutates no other field, while an idle event leaves the state unchanged
(handleEvent has no idle case); in revision A, processEvent ignores both idle
and end-file entirely, mutating nothing and broadcasting nothing. -/
theorem C3_idle_endfile (s : RevB.State) (sA : RevA.State) (e : MpvEvent) :
    (e.event = "end-file" →
      RevB.handleEvent s (Line.ok e) =
        ({ s with IsPlaying := false }, [{ s with IsPlaying := false }])) ∧
    (e.event = "idle" → RevB.handleEvent s (Line.ok e) = (s, [s])) ∧
    (e.event = "idle" ∨ e.event = "end-file" →
      RevA.processEvent sA (Line.ok e) = ⟨sA, [], false⟩) := by
  refine ⟨fun h => ?_, fun h => ?_, fun h => ?_⟩
  · simp [RevB.handleEvent, h]
  · simp [RevB.handleEvent, h]
  · rcases h with h | h <;> simp [RevA.processEvent, h]

/-- C3 witness: the end-file and idle branches evaluated on the initial
states. -/
theorem C3_idle_endfile_witness :
    RevB.handleEvent RevB.newState (Line.ok ⟨"end-file", "", JsonValue.null⟩) =
      ({ RevB.newState with IsPlaying := false },
        [{ RevB.newState with IsPlaying := false }]) ∧
    RevA.processEvent RevA.newPlayerState (Line.ok ⟨"idle", "", JsonValue.null⟩) =
      ⟨RevA.newPlayerState, [], false⟩ :=
  ⟨(C3_idle_endfile RevB.newState RevA.newPlayerState
      ⟨"end-file", "", JsonValue.null⟩).1 rfl,
   (C3_idle_endfile RevB.newState RevA.newPlayerState
      ⟨"idle", "", JsonValue.null⟩).2.2 (Or.inl rfl)⟩

/-- C3 counterexample: an idle event does not reset IsPlaying in either
revision — from a playing state both handlers leave IsPlaying true, although
the claim says processing idle always sets it to false. -/
theorem C3_idle_cex :
    (RevB.handleEvent { RevB.newState with IsPlaying := true }
        (Line.ok ⟨"idle", "", JsonValue.null⟩)).1.IsPlaying = true ∧
    (RevA.processEvent { RevA.newPlayerState with IsPlaying := true }
        (Line.ok ⟨"end-file", "", JsonValue.null⟩)).state.IsPlaying = true := by
  refine ⟨by decide, by decide⟩

/-- C4 (amended): revision A broadcasts exactly one snapshot — the new state —
precisely when the event is a property-change that assigns a tracked field
(eventTouches), and nothing otherwise; revision B broadcasts exactly one
snapshot after every successfully decoded event, even when no tracked field
was touched; a malformed line broadcasts nothing in either revision. -/
theorem C4_broadcasts :
    (∀ s e, (RevA.processEvent s (Line.ok e)).broadcasts =
      (if RevA.eventTouches e then [(RevA.processEvent s (Line.ok e)).state]
       else [])) ∧
    (∀ s, (RevA.processEvent s Line.malformed).broadcasts = []) ∧
    (∀ s e, (RevB.handleEvent s (Line.ok e)).2 = [(RevB.handleEvent s (Line.ok e)).1]) ∧
    (∀ s, (RevB.handleEvent s Line.malformed).2 = []) := by
  refine ⟨fun s e => ?_, fun s => rfl, fun s e => rfl, fun s => rfl⟩
  obtain ⟨ev, nm, d⟩ := e
  by_cases hev : ev = "property-change"
  · subst hev
    by_cases h1 : nm = "pause"
    · subst h1; cases d <;> simp [RevA.processEvent, RevA.eventTouches]
    · by_cases h2 : nm = "media-title"
      · subst h2; cases d <;> simp [RevA.processEvent, RevA.eventTouches]
      · by_cases h3 : nm = "volume"
        · subst h3; cases d <;> simp [RevA.processEvent, RevA.eventTouches]
        · by_cases h4 : nm = "time-pos"
          · subst h4; cases d <;> simp [RevA.processEvent, RevA.eventTouches]
          · by_cases h5 : nm = "duration"
            · subst h5; cases d <;> simp [RevA.processEvent, RevA.eventTouches]
            · simp [RevA.processEvent, RevA.eventTouches, h1, h2, h3, h4, h5]
  · simp [RevA.processEvent, RevA.eventTouches, hev]

/-- C4 counterexample: an event of unknown kind touches no tracked field —
the state is unchanged — yet revision B still broadcasts one snapshot,
although the claim says such events produce no broadcast. -/
theorem C4_noop_broadcast_cex :
    (RevB.handleEvent RevB.newState
        (Line.ok ⟨"unknown-kind", "", JsonValue.null⟩)).1 = RevB.newState ∧
    (RevB.handleEvent RevB.newState
        (Line.ok ⟨"unknown-kind", "", JsonValue.null⟩)).2.length = 1 := by
  refine ⟨by decide, rfl⟩

/-- C1 (amended): the volume bound holds at construction (revision A starts
at 100) and is preserved by SetVolume, which rejects an out-of-range request
before any I/O; processing an engine event preserves it only when the event
is not a volume property-change whose numeric data lies outside 0 to 100 —
for such data the listener stores the unclamped truncation (see the
counterexample). Both revisions' listeners are covered. -/
theorem C1_volume_range :
    (0 ≤ RevA.newPlayerState.Volume ∧ RevA.newPlayerState.Volume ≤ 100) ∧
    (∀ p env v, v < 0 ∨ v > 100 →
      RevA.SetVolume p env v =
        ⟨Except.error (Err.invalidArgument "volume must be between 0 and 100"),
          [], p⟩) ∧
    (∀ s l, 0 ≤ s.Volume → s.Volume ≤ 100 → volumeDataInRange l = true →
      0 ≤ (RevA.processEvent s l).state.Volume ∧
        (RevA.processEvent s l).state.Volume ≤ 100) ∧
    (∀ s l, 0 ≤ RevB.State.Volume s → RevB.State.Volume s ≤ 100 →
      volumeDataInRange l = true →
      0 ≤ (RevB.handleEvent s l).1.Volume ∧
        (RevB.handleEvent s l).1.Volume ≤ 100) := by
  refine ⟨⟨by decide, by decide⟩, fun p env v h => ?_, fun s l h0 h100 hg => ?_,
    fun s l h0 h100 hg => ?_⟩
  · simp [RevA.SetVolume, h]
  · rcases processEvent_Volume_eq s l with h | ⟨x, hl, h⟩
    · rw [h]; exact ⟨h0, h100⟩
    · rw [h]
      subst hl
      have hx : 0 ≤ x ∧ x ≤ 100 := by simpa [volumeDataInRange] using hg
      exact truncRat_bounds x hx.1 hx.2
  · cases l with
    | malformed => exact ⟨h0, h100⟩
    | ok e =>
      obtain ⟨ev, nm, d⟩ := e
      by_cases hev : ev = "property-change"
      · subst hev
        have hh : (RevB.handleEvent s (Line.ok ⟨"property-change", nm, d⟩)).1 =
            RevB.updateProperty s nm d := by
          simp [RevB.handleEvent]
        rw [hh]
        rcases updateProperty_Volume_eq s nm d with h | ⟨hnm, x, hd, h⟩
        · rw [h]; exact ⟨h0, h100⟩
        · rw [h]
          subst hnm; subst hd
          have hx : 0 ≤ x ∧ x ≤ 100 := by simpa [volumeDataInRange] using hg
          exact truncRat_bounds x hx.1 hx.2
      · by_cases hr : ev = "playback-restart"
        · subst hr
          simpa [RevB.handleEvent] using ⟨h0, h100⟩
        · by_cases he2 : ev = "end-file"
          · subst he2
            simpa [RevB.handleEvent] using ⟨h0, h100⟩
          · simpa [RevB.handleEvent, hev, hr, he2] using ⟨h0, h100⟩

/-- C1 witness: SetVolume 101 is rejected with no effects, and a volume event
with in-range data 50 keeps the bound from the initial state. -/
theorem C1_volume_range_witness :
    RevA.SetVolume RevA.newPlayer ⟨true, true, none⟩ 101 =
      ⟨Except.error (Err.invalidArgument "volume must be between 0 and 100"),
        [], RevA.newPlayer⟩ ∧
    (0 ≤ (RevA.processEvent RevA.newPlayerState
        (Line.ok ⟨"property-change", "volume", JsonValue.num 50⟩)).state.Volume ∧
      (RevA.processEvent RevA.newPlayerState
        (Line.ok ⟨"property-change", "volume", JsonValue.num 50⟩)).state.Volume ≤ 100) :=
  ⟨C1_volume_range.2.1 RevA.newPlayer ⟨true, true, none⟩ 101 (Or.inr (by norm_num)),
   C1_volume_range.2.2.1 RevA.newPlayerState
     (Line.ok ⟨"property-change", "volume", JsonValue.num 50⟩)
     (by decide) (by decide) (by decide)⟩

/-- C1 counterexample: a volume property-change with numeric data 150 drives
Volume to 150 in both revisions, outside the claimed interval 0 to 100. -/
theorem C1_overflow_cex :
    (RevA.processEvent RevA.newPlayerState
        (Line.ok ⟨"property-change", "volume", JsonValue.num 150⟩)).state.Volume = 150 ∧
    (RevB.updateProperty RevB.newState "volume" (JsonValue.num 150)).Volume = 150 ∧
    ¬((150 : Int) ≤ 100) :=
  ⟨by decide, by decide, by decide⟩

/-- C2: SetVolume fails with InvalidArgument exactly when v is outside 0 to
100 — on that failure with no I/O (empty effect trace) and the player record
unchanged — and for in-range v it hands the set_property volume command to
sendCommand, which never produces an InvalidArgument error and never mutates
the player. Both revisions are covered. -/
theorem C2_setvolume_validation (v : Int) :
    ((v < 0 ∨ v > 100) →
      (∀ env, RevB.SetVolume env v =
        (Except.error (Err.invalidArgument "volume must be 0-100"), [])) ∧
      (∀ p env, RevA.SetVolume p env v =
        ⟨Except.error (Err.invalidArgument "volume must be between 0 and 100"),
          [], p⟩)) ∧
    (¬(v < 0 ∨ v > 100) →
      (∀ env, RevB.SetVolume env v =
        RevB.sendCommand env
          [CmdArg.str "set_property", CmdArg.str "volume", CmdArg.int v]) ∧
      (∀ p env, RevA.SetVolume p env v =
        RevA.sendCommand p env
          [CmdArg.str "set_property", CmdArg.str "volume", CmdArg.int v])) ∧
    (∀ env cmd msg, (RevB.sendCommand env cmd).1 ≠
      Except.error (Err.invalidArgument msg)) ∧
    (∀ p env cmd, (RevA.sendCommand p env cmd).player = p ∧
      ∀ msg, (RevA.sendCommand p env cmd).result ≠
        Except.error (Err.invalidArgument msg)) := by
  refine ⟨fun h => ⟨fun env => ?_, fun p env => ?_⟩,
    fun h => ⟨fun env => ?_, fun p env => ?_⟩,
    fun env cmd msg => ?_, fun p env cmd => ⟨?_, fun msg => ?_⟩⟩
  · simp [RevB.SetVolume, h]
  · simp [RevA.SetVolume, h]
  · simp [RevB.SetVolume, h]
  · simp [RevA.SetVolume, h]
  · unfold RevB.sendCommand; split_ifs <;> simp
  · unfold RevA.sendCommand; split_ifs <;> rfl
  · unfold RevA.sendCommand; split_ifs <;> simp

/-- C2 witness: 150 is rejected by revision A with no effects; 50 is passed
through to sendCommand by revision B. -/
theorem C2_setvolume_validation_witness :
    RevA.SetVolume RevA.newPlayer ⟨true, true, none⟩ 150 =
      ⟨Except.error (Err.invalidArgument "volume must be between 0 and 100"),
        [], RevA.newPlayer⟩ ∧
    RevB.SetVolume ⟨true, true, none⟩ 50 =
      RevB.sendCommand ⟨true, true, none⟩
        [CmdArg.str "set_property", CmdArg.str "volume", CmdArg.int 50] :=
  ⟨((C2_setvolume_validation 150).1 (Or.inr (by norm_num))).2
      RevA.newPlayer ⟨true, true, none⟩,
   ((C2_setvolume_validation 50).2.1 (by omega)).1 ⟨true, true, none⟩⟩

/-- C10: on a player whose started flag is false, sendCommand — and with it
TogglePause, Stop, Seek, and SetVolume for any in-range volume — and LoadFile
all fail with the "player not started" error, with an empty effect trace (no
dial, no write) and the player record untouched; Shutdown returns nil with an
empty effect trace: no kill, no channel close, no socket-file removal. -/
theorem C10_not_started (p : RevA.Player) (env : Env) (hs : p.started = false) :
    (∀ cmd, RevA.sendCommand p env cmd = ⟨Except.error Err.notStarted, [], p⟩) ∧
    (∀ path mode, RevA.LoadFile p env path mode =
      ⟨Except.error Err.notStarted, [], p⟩) ∧
    RevA.TogglePause p env = ⟨Except.error Err.notStarted, [], p⟩ ∧
    RevA.Stop p env = ⟨Except.error Err.notStarted, [], p⟩ ∧
    (∀ v : Int, 0 ≤ v → v ≤ 100 →
      RevA.SetVolume p env v = ⟨Except.error Err.notStarted, [], p⟩) ∧
    (∀ x : Rat, RevA.Seek p env x = ⟨Except.error Err.notStarted, [], p⟩) ∧
    RevA.Shutdown p env = ⟨Except.ok (), [], p⟩ := by
  have hsc : ∀ cmd, RevA.sendCommand p env cmd =
      ⟨Except.error Err.notStarted, [], p⟩ := by
    intro cmd
    simp [RevA.sendCommand, hs]
  refine ⟨hsc, fun path mode => ?_, hsc _, hsc _, fun v h0 h100 => ?_,
    fun x => hsc _, ?_⟩
  · simp [RevA.LoadFile, hs]
  · unfold RevA.SetVolume
    rw [if_neg (by omega)]
    exact hsc _
  · simp [RevA.Shutdown, hs]

/-- C10 witness: the not-started branches evaluated on a concrete player. -/
theorem C10_not_started_witness :
    RevA.LoadFile ⟨false, RevA.newPlayerState⟩ ⟨true, true, none⟩ "song.mp3"
        "replace" =
      ⟨Except.error Err.notStarted, [], ⟨false, RevA.newPlayerState⟩⟩ ∧
    RevA.SetVolume ⟨false, RevA.newPlayerState⟩ ⟨true, true, none⟩ 50 =
      ⟨Except.error Err.notStarted, [], ⟨false, RevA.newPlayerState⟩⟩ ∧
    RevA.Shutdown ⟨false, RevA.newPlayerState⟩ ⟨true, true, none⟩ =
      ⟨Except.ok (), [], ⟨false, RevA.newPlayerState⟩⟩ := by
  have h := C10_not_started ⟨false, RevA.newPlayerState⟩ ⟨true, true, none⟩ rfl
  exact ⟨h.2.1 "song.mp3" "replace", h.2.2.2.2.1 50 (by norm_num) (by norm_num),
    h.2.2.2.2.2.2⟩

end Tunecli
